import Mathlib

/-!
Verification of the react-kitten window-snapping core.

This file gives a shallow embedding of the snap engine of the `Space`
component (`Space.tsx`), its window registry (`library.ts`: `SpaceWindow`,
`SpaceWindows`, `ToSnap`), and the window-side event handlers and resize-delta
resolver of `Window.tsx`, together with theorems settling the specification
claims about them.

Modelling conventions:

* Coordinates, sizes and thresholds are modelled as integers (`ℤ`).  The
  source computes with JavaScript numbers; every arithmetic operation the
  claims exercise (scale multiplication, absolute differences, threshold
  comparisons, margin addition) is exact over the integers, and the only
  divisions reached by the theorems are of the form `(v * s) / s` with
  `s ≠ 0`, which are exact as well.
* JavaScript `Map`s keyed by window id are modelled as lists of records in
  insertion order; `set` on an existing key updates the stored record in
  place (mirroring `SpaceWindows.set`, which mutates the existing object).
* The source's `Snapping`/`Snap` objects hold references to the live
  registry records.  Because `SpaceWindows.set` mutates records in place and
  never replaces them, a reference is determined by the window id it points
  at; the embedding therefore stores window ids inside `Snapping`/`Snap`/
  `ToSnap` and dereferences them through the registry at each read, which
  reproduces the aliasing behaviour of the source.
* React state setters (`setSnapping`, `setToSnap`, `setSnaps`) are modelled
  as direct state updates; `snapsRef`/`windowsRef` are refs in the source and
  already update synchronously.  A callback's captured `snapping` value is
  modelled by passing the snapshot explicitly (`onUserBoundsChangeEndAux`).
-/

/-- Registry record for one window, as in `SpaceWindow` of `library.ts`:
id, position, size, the `moving`/`resizing`/`staged` flags and the transient
`clockPosition` edge hint (0 = candidate is a left neighbour, 1 = right). -/
structure SpaceWindow where
  id : String
  position : ℤ × ℤ
  size : ℤ × ℤ
  moving : Bool := false
  resizing : Bool := false
  staged : Bool := false
  clockPosition : Option Nat := none
deriving DecidableEq, Repr

namespace SpaceWindow

/-- Structural equality of `SpaceWindow.equals` from `library.ts`: the other
value must be non-null and agree on id, position, size, `moving` and
`resizing` (`staged` and `clockPosition` are not compared). -/
def equalsW (w : SpaceWindow) (other : Option SpaceWindow) : Bool :=
  match other with
  | none => false
  | some o =>
      w.id == o.id &&
      w.position.1 == o.position.1 && w.position.2 == o.position.2 &&
      w.size.1 == o.size.1 && w.size.2 == o.size.2 &&
      w.moving == o.moving && w.resizing == o.resizing

end SpaceWindow

-- The registry of `SpaceWindows` is a `Map<string, SpaceWindow>`; we model
-- it as a list of records in insertion order.
namespace SpaceWindows

/-- `SpaceWindows.get`. -/
def get (ws : List SpaceWindow) (id : String) : Option SpaceWindow :=
  ws.find? (fun w => w.id == id)

/-- `SpaceWindows.has`. -/
def has (ws : List SpaceWindow) (id : String) : Bool :=
  ws.any (fun w => w.id == id)

/-- `SpaceWindows.set`: insert when the id is absent; otherwise update the
existing record in place, overwriting only `position`, `size` and
`clockPosition` (the source mutates the stored object and leaves `moving`,
`resizing`, `staged` untouched). -/
def set (ws : List SpaceWindow) (w : SpaceWindow) : List SpaceWindow :=
  if ws.any (fun x => x.id == w.id) then
    ws.map (fun x =>
      if x.id == w.id then
        { x with position := w.position, size := w.size,
                 clockPosition := w.clockPosition }
      else x)
  else ws ++ [w]

/-- `SpaceWindows.remove`. -/
def remove (ws : List SpaceWindow) (id : String) : List SpaceWindow :=
  ws.filter (fun w => !(w.id == id))

end SpaceWindows

/-- Snapping orientation (`type SnappingOrientation` in `Space.tsx`); only
`horizontal` is ever produced by the engine. -/
inductive SnappingOrientation
| horizontal
| vertical
deriving DecidableEq, Repr

/-- Tentative snapping candidate (`class Snapping` in `Space.tsx`).  The
source stores references to live registry records; following the aliasing
convention above, the embedding stores the referenced window ids
(`relatedIds` holds the key order of the `relatedWindows` map). -/
structure Snapping where
  orientation : SnappingOrientation
  interactedId : String
  relatedIds : List String
  leftId : String
  rightId : String
deriving DecidableEq, Repr

/-- Committed snap (`class Snap extends Snapping`). -/
structure Snap extends Snapping where
  snapMoving : Bool := false
  snapResizing : Bool := false
  zIndex : ℤ := 0
deriving DecidableEq, Repr

/-- Membership test `snap.relatedWindows.has(id)`. -/
def Snap.hasMember (sn : Snap) (id : String) : Bool :=
  sn.relatedIds.contains id

-- `Snapping.equals` compares orientation plus `SpaceWindow.equals` on the
-- left and right windows.  Inside the engine both sides hold references into
-- the same registry, where ids are unique and `set` mutates in place, so two
-- references are field-equal exactly when they carry the same id; the
-- id-based comparison below is therefore the engine-level meaning of
-- `equals`.  (The claim about `Snapping.equals` as a function on arbitrary
-- values is treated separately with `SnappingV.equalsV`.)
/-- Engine-level `Snapping.equals` (aliased references compared by id). -/
def Snapping.equalsOpt (a : Snapping) (b : Option Snapping) : Bool :=
  match b with
  | none => false
  | some b =>
      a.orientation == b.orientation && a.leftId == b.leftId && a.rightId == b.rightId

/-- Engine-level `Snap.equals` (inherited from `Snapping`). -/
def Snap.equalsSnap (a b : Snap) : Bool :=
  a.orientation == b.orientation && a.leftId == b.leftId && a.rightId == b.rightId

/-- One-shot snap instruction (`class ToSnap` in `library.ts`).  The engine
always constructs it with both `newPosition` and `newSize` present
(`Space.tsx` line constructing `new ToSnap(...)`), so they are plain fields
here; `windowIds` holds the ids of the `[leftWindow, rightWindow]` tuple. -/
structure ToSnap where
  targetId : String
  windowIds : List String
  newPosition : ℤ × ℤ
  newSize : ℤ × ℤ
deriving DecidableEq, Repr

/-- The `snapWith` policy prop of `Space`. -/
inductive SnapWith
| all
| move
| resize
deriving DecidableEq, Repr

/-- Configuration of one `Space` plus the manager scale vector. -/
structure SpaceConfig where
  snapMargin : ℤ
  snapThreshold : ℤ
  snapWith : SnapWith
  scale : ℤ × ℤ
deriving Repr

/-- Manager `scaleX`: `x * scale[0]`. -/
def scaleX (cfg : SpaceConfig) (v : ℤ) : ℤ := v * cfg.scale.1

/-- Manager `scaleY`: `y * scale[1]`. -/
def scaleY (cfg : SpaceConfig) (v : ℤ) : ℤ := v * cfg.scale.2

/-- Manager `revertScaleX`: `x / scale[0]`. -/
def revertScaleX (cfg : SpaceConfig) (v : ℤ) : ℤ := v / cfg.scale.1

/-- Manager `revertScaleY`: `y / scale[1]`. -/
def revertScaleY (cfg : SpaceConfig) (v : ℤ) : ℤ := v / cfg.scale.2

/-- Mutable state of the engine: the `windowsRef` registry, the committed
`snaps` list (`snapsRef`), the tentative `snapping` and pending `toSnap`. -/
structure SpaceState where
  windows : List SpaceWindow
  snaps : List Snap
  snapping : Option Snapping
  toSnap : Option ToSnap
deriving DecidableEq, Repr

/-- Proximity check of `onWindowBoundsChange` for one candidate `other`
against the interacting window's fresh `position`/`size`: left-neighbour test
first (`|other.right - position.x|`, top gap, bottom gap all within
`snapThreshold` gives hint 0), then the mirrored right-neighbour test
(hint 1), else no candidate. -/
def candidateHint (cfg : SpaceConfig) (position size : ℤ × ℤ)
    (other : SpaceWindow) : Option Nat :=
  let lrd := |(other.position.1 + scaleX cfg other.size.1) - position.1|
  let td := |other.position.2 - position.2|
  let bd := |(other.position.2 + scaleY cfg other.size.2) -
             (position.2 + scaleY cfg size.2)|
  if lrd ≤ cfg.snapThreshold ∧ td ≤ cfg.snapThreshold ∧ bd ≤ cfg.snapThreshold then
    some 0
  else
    let rld := |other.position.1 - (position.1 + scaleX cfg size.1)|
    if rld ≤ cfg.snapThreshold ∧ td ≤ cfg.snapThreshold ∧ bd ≤ cfg.snapThreshold then
      some 1
    else none

/-- Whether `other` enters the `nearbyWindows` map: not the interacting
window itself, not staged, and one of the two proximity tests succeeds. -/
def isCandidate (cfg : SpaceConfig) (id : String) (position size : ℤ × ℤ)
    (w : SpaceWindow) : Bool :=
  !(w.id == id) && !w.staged && (candidateHint cfg position size w).isSome

/-- In-place `clockPosition` mutation performed by the proximity map on the
registry records of qualifying candidates. -/
def applyProximity (cfg : SpaceConfig) (id : String) (position size : ℤ × ℤ)
    (w : SpaceWindow) : SpaceWindow :=
  if isCandidate cfg id position size w then
    { w with clockPosition := candidateHint cfg position size w }
  else w

/-- The `nearbyWindows` collection: qualifying candidates with their freshly
written edge hints, in registry (map-insertion) order. -/
def nearbyOf (cfg : SpaceConfig) (id : String) (position size : ℤ × ℤ)
    (ws : List SpaceWindow) : List SpaceWindow :=
  (ws.map (applyProximity cfg id position size)).filter
    (isCandidate cfg id position size)

/-- `nearbyWindows.has` on the collected candidates. -/
def nearbyHas (nearby : List SpaceWindow) (id : String) : Bool :=
  nearby.any (fun w => w.id == id)

/-- Stale-snap cleanup of `onWindowBoundsChange`: for each existing snap
involving the interacting window (snapshot taken before the loop), drop it
from the current list when neither its left nor its right member is still a
nearby candidate. -/
def cleanupStale (nearby : List SpaceWindow) :
    List Snap → List Snap → List Snap
  | [], snaps => snaps
  | ex :: rest, snaps =>
      let snaps' :=
        if !(nearbyHas nearby ex.leftId) && !(nearbyHas nearby ex.rightId) then
          snaps.filter (fun sn => !(Snap.equalsSnap sn ex))
        else snaps
      cleanupStale nearby rest snaps'

/-- The loop inside the ambiguous branch (`0` or `> 2` candidates) of
`onWindowBoundsChange`: it runs after all snaps involving the interacting
window were already filtered out, looking for a snap involving both the
window and a nearby candidate and dropping its equals. -/
def ambiguousLoop (id : String) :
    List SpaceWindow → List Snap → List Snap
  | [], snaps => snaps
  | nw :: rest, snaps =>
      let snaps' :=
        match snaps.find? (fun sn => sn.hasMember id && sn.hasMember nw.id) with
        | some ex => snaps.filter (fun sn => !(Snap.equalsSnap sn ex))
        | none => snaps
      ambiguousLoop id rest snaps'

/-- The `snapWith` gate of `onWindowBoundsChange`:
`(all ∧ (moving ∨ resizing)) ∨ (resize ∧ resizing) ∨ (move ∧ moving)`. -/
def policyAllows (sw : SnapWith) (moving resizing : Bool) : Bool :=
  match sw with
  | .all => moving || resizing
  | .resize => resizing
  | .move => moving

/-- Candidate loop of `onWindowBoundsChange` (1 or 2 nearby windows): fetch
the interacting window's record (clearing all snap state defensively when it
is missing), supersede a committed snap for the pair unless it is mid-drag,
and build the tentative `Snapping` according to the candidate's edge hint,
replacing the held one only when it differs. -/
def snapLoop (id : String) (ws : List SpaceWindow) :
    List SpaceWindow → List Snap → Option Snapping → Option ToSnap → SpaceState
  | [], snaps, snapping, toSnap =>
      { windows := ws, snaps := snaps, snapping := snapping, toSnap := toSnap }
  | nw :: rest, snaps, snapping, toSnap =>
      match SpaceWindows.get ws id with
      | none =>
          { windows := ws, snaps := snaps.filter (fun sn => !sn.hasMember id),
            snapping := none, toSnap := none }
      | some _ =>
          let snaps1 :=
            match snaps.find? (fun sn => sn.hasMember id && sn.hasMember nw.id) with
            | some ex =>
                if !ex.snapMoving && !ex.snapResizing then
                  snaps.filter (fun sn => !(Snap.equalsSnap sn ex))
                else snaps
            | none => snaps
          let snapping1 :=
            if nw.clockPosition == some 0 then
              let newSn : Snapping :=
                { orientation := .horizontal, interactedId := id,
                  relatedIds := [nw.id, id], leftId := nw.id, rightId := id }
              if !(Snapping.equalsOpt newSn snapping) then some newSn else snapping
            else if nw.clockPosition == some 1 then
              let newSn : Snapping :=
                { orientation := .horizontal, interactedId := id,
                  relatedIds := [nw.id, id], leftId := id, rightId := nw.id }
              if !(Snapping.equalsOpt newSn snapping) then some newSn else snapping
            else snapping
          snapLoop id ws rest snaps1 snapping1 toSnap

/-- The `onWindowBoundsChange` callback of `Space.tsx`.  A staged
notification clears the tentative state and returns at once (the
`!snapsRef.current` disjunct is never true: the ref always holds an array).
Otherwise the registry record is written, proximity hints are computed, stale
snaps are cleaned up, and the candidate-count policy is applied. -/
def onWindowBoundsChange (cfg : SpaceConfig) (s : SpaceState) (id : String)
    (position size : ℤ × ℤ) (moving resizing staged : Bool) : SpaceState :=
  if staged then
    { s with toSnap := none, snapping := none }
  else
    let ws := SpaceWindows.set s.windows
      { id := id, position := position, size := size, moving := moving,
        resizing := resizing, staged := staged, clockPosition := none }
    let ws2 := ws.map (applyProximity cfg id position size)
    let nearby := ws2.filter (isCandidate cfg id position size)
    let existing := s.snaps.filter (fun sn => sn.hasMember id)
    let snaps1 := cleanupStale nearby existing s.snaps
    if nearby.length = 0 ∨ nearby.length > 2 then
      let snaps2 := snaps1.filter (fun sn => !sn.hasMember id)
      let snaps3 := ambiguousLoop id nearby snaps2
      { windows := ws2, snaps := snaps3, snapping := none, toSnap := none }
    else if policyAllows cfg.snapWith moving resizing then
      snapLoop id ws2 nearby snaps1 s.snapping s.toSnap
    else
      { windows := ws2, snaps := snaps1, snapping := s.snapping, toSnap := s.toSnap }

/-- The commit gate of `onUserBoundsChangeEnd`:
`(all ∧ ¬resizing ∧ ¬moving) ∨ (resize ∧ ¬resizing) ∨ (move ∧ ¬moving)`. -/
def endPolicyOk (sw : SnapWith) (moving resizing : Bool) : Bool :=
  match sw with
  | .all => !resizing && !moving
  | .resize => !resizing
  | .move => !moving

/-- The partner of the interacting window inside a `Snapping`.  The source
computes `snapping.leftWindow.equals(interactedWindow) ? rightWindow :
leftWindow`; both sides are references into a registry with unique,
in-place-updated records, so the structural test (which includes the id)
holds exactly when the left member's id is the interacting id. -/
def otherIdOf (sn : Snapping) (id : String) : String :=
  if sn.leftId == id then sn.rightId else sn.leftId

/-- Body of `onUserBoundsChangeEnd` with the captured `snapping` state value
passed explicitly (`snapping0`), mirroring the closure capture in the source;
the callback first clears the tentative snapping, then either commits a
`Snap` with a one-shot `ToSnap`, or — when the gate fails and the window is
staged — drops every snap involving it. -/
def onUserBoundsChangeEndAux (cfg : SpaceConfig) (snapping0 : Option Snapping)
    (s0 : SpaceState) (id : String) (size : ℤ × ℤ)
    (moving resizing staged : Bool) : SpaceState :=
  let s := { s0 with snapping := none }
  match snapping0 with
  | none =>
      if staged then { s with snaps := s.snaps.filter (fun sn => !sn.hasMember id) }
      else s
  | some sn =>
      if endPolicyOk cfg.snapWith moving resizing then
        match SpaceWindows.get s.windows id with
        | none => s
        | some _ =>
            let otherId := otherIdOf sn id
            match SpaceWindows.get s.windows otherId with
            | none => s
            | some other =>
                if sn.orientation = .horizontal then
                  let snaps1 := s.snaps.filter (fun x => !x.hasMember id)
                  if staged || other.staged then
                    { s with snaps := snaps1 }
                  else if other.clockPosition == some 0 then
                    let newPosition : ℤ × ℤ :=
                      (other.position.1 + scaleX cfg other.size.1 + cfg.snapMargin,
                       other.position.2)
                    let newSize : ℤ × ℤ := (scaleX cfg size.1, scaleY cfg other.size.2)
                    let snap : Snap :=
                      { orientation := .horizontal, interactedId := sn.interactedId,
                        relatedIds := sn.relatedIds, leftId := sn.leftId,
                        rightId := sn.rightId }
                    { s with
                      snaps := snaps1 ++ [snap],
                      toSnap := some
                        { targetId := sn.interactedId,
                          windowIds := [sn.leftId, sn.rightId],
                          newPosition := newPosition,
                          newSize := (revertScaleX cfg newSize.1,
                                      revertScaleY cfg newSize.2) } }
                  else if other.clockPosition == some 1 then
                    let newPosition : ℤ × ℤ :=
                      (other.position.1 - scaleX cfg size.1 - cfg.snapMargin,
                       other.position.2)
                    let newSize : ℤ × ℤ := (scaleX cfg size.1, scaleY cfg other.size.2)
                    let snap : Snap :=
                      { orientation := .horizontal, interactedId := sn.interactedId,
                        relatedIds := sn.relatedIds, leftId := sn.leftId,
                        rightId := sn.rightId }
                    { s with
                      snaps := snaps1 ++ [snap],
                      toSnap := some
                        { targetId := sn.interactedId,
                          windowIds := [sn.leftId, sn.rightId],
                          newPosition := newPosition,
                          newSize := (revertScaleX cfg newSize.1,
                                      revertScaleY cfg newSize.2) } }
                  else
                    { s with snaps :=
                        snaps1.filter (fun x => !x.hasMember id && !x.hasMember otherId) }
                else s
      else
        if staged then { s with snaps := s.snaps.filter (fun sn' => !sn'.hasMember id) }
        else s

/-- The `onUserBoundsChangeEnd` callback: in a pointer-release tick the
captured `snapping` is the current state value. -/
def onUserBoundsChangeEnd (cfg : SpaceConfig) (s : SpaceState) (id : String)
    (size : ℤ × ℤ) (moving resizing staged : Bool) : SpaceState :=
  onUserBoundsChangeEndAux cfg s.snapping s id size moving resizing staged

/-- The staged effect of `Window.tsx`, which fires when `staged` flips to
true: it calls `onWindowBoundsChanged(id, pos, size, true, resizing, true)`
and then `onUserBoundsChangeEnd(id, pos, size, false, resizing, true)` in the
same tick; both closures capture the same pre-tick `snapping` value. -/
def stagedNotify (cfg : SpaceConfig) (s : SpaceState) (id : String)
    (position size : ℤ × ℤ) (resizing : Bool) : SpaceState :=
  let snapping0 := s.snapping
  let s1 := onWindowBoundsChange cfg s id position size true resizing true
  onUserBoundsChangeEndAux cfg snapping0 s1 id size false resizing true

/-- Per-window component state relevant to the snap-driven event callbacks of
`Window.tsx`: id, position/size state, and the `minSize`/`maxSize` props used
by `resizeEventCallback` (defaults in the source: `minSize = [100, 100]`,
`maxSize = null`). -/
structure CWindow where
  id : String
  position : ℤ × ℤ
  size : ℤ × ℤ
  minSize : Option (ℤ × ℤ) := some (100, 100)
  maxSize : Option (ℤ × ℤ) := none
deriving DecidableEq, Repr

/-- Size clamping of `resizeEventCallback`: floor at `minSize` then cap at
`maxSize`, per component. -/
def clampSize (minSize maxSize : Option (ℤ × ℤ)) (s : ℤ × ℤ) : ℤ × ℤ :=
  let s1 :=
    match minSize with
    | some m => (if s.1 < m.1 then m.1 else s.1, if s.2 < m.2 then m.2 else s.2)
    | none => s
  match maxSize with
  | some m => (if s1.1 > m.1 then m.1 else s1.1, if s1.2 > m.2 then m.2 else s1.2)
  | none => s1

/-- `moveEventCallback` of `Window.tsx` as seen by one window: a `move` event
applies only when the target id matches, and then sets
`position + positionDelta` (no clamping on this path). -/
def moveEventCallback (targetId : String) (delta : ℤ × ℤ) (w : CWindow) : CWindow :=
  if w.id == targetId then
    { w with position := (w.position.1 + delta.1, w.position.2 + delta.2) }
  else w

/-- `resizeEventCallback` of `Window.tsx`: a `resize` event applies only when
the target id matches, and then sets `size + sizeDelta` clamped to the
window's `minSize`/`maxSize`. -/
def resizeEventCallback (targetId : String) (delta : ℤ × ℤ) (w : CWindow) : CWindow :=
  if w.id == targetId then
    { w with size :=
        clampSize w.minSize w.maxSize (w.size.1 + delta.1, w.size.2 + delta.2) }
  else w

/-- The `SnapMover.onMove` dispatch of `Space.tsx`: for each member window of
the snap (`relatedWindows`, in key order) a `move` event carrying the raw
pointer `positionDelta` is dispatched; every mounted window's listener runs
and the matching window applies it. -/
def snapMoverDispatch (relatedIds : List String) (delta : ℤ × ℤ)
    (ws : List CWindow) : List CWindow :=
  relatedIds.foldl (fun acc tid => acc.map (moveEventCallback tid delta)) ws

/-- The `SnapResizer.onResize` dispatch of `Space.tsx` for a horizontal snap:
`resize` to the left member with `[revertScaleX(dx), 0]`, `resize` to the
right member with `[-revertScaleX(dx), 0]`, then `move` to the right member
with `[dx, 0]` (the move delta is not unscaled in the source). -/
def snapResizerDispatch (cfg : SpaceConfig) (leftId rightId : String) (dx : ℤ)
    (ws : List CWindow) : List CWindow :=
  let ws1 := ws.map (resizeEventCallback leftId (revertScaleX cfg dx, 0))
  let ws2 := ws1.map (resizeEventCallback rightId (-(revertScaleX cfg dx), 0))
  ws2.map (moveEventCallback rightId (dx, 0))

/-- Value-level `Snapping` as the class data of `Space.tsx`, with the left
and right member windows stored as record values (used to study
`Snapping.equals` as a function on arbitrary values). -/
structure SnappingV where
  orientation : SnappingOrientation
  interactedWindow : SpaceWindow
  leftWindow : SpaceWindow
  rightWindow : SpaceWindow
deriving DecidableEq, Repr

/-- `Snapping.equals` of `Space.tsx` on values: the other value is non-null,
orientations agree, and `SpaceWindow.equals` holds for the left pair and the
right pair. -/
def SnappingV.equalsV (a : SnappingV) (b : Option SnappingV) : Bool :=
  match b with
  | none => false
  | some o =>
      a.orientation == o.orientation &&
      a.leftWindow.equalsW (some o.leftWindow) &&
      a.rightWindow.equalsW (some o.rightWindow)

/-- The eight direction tags handled by the `Resizer` delta resolver of
`Window.tsx`. -/
def resizerDirections : List String :=
  ["top", "right", "bottom", "left", "top-right", "top-left",
   "bottom-right", "bottom-left"]

/-- Output of the resize-delta resolver: the size delta handed to
`onResizeCallback`, and the new position handed to `onMove` when the
direction moves the window's top or left edge. -/
structure ResizeResolution where
  sizeDelta : ℤ × ℤ
  movePosition : Option (ℤ × ℤ)
deriving DecidableEq, Repr

/-- The resize-delta resolver effect of `Resizer` in `Window.tsx`: an
if/else-if chain over the direction tag; `none` models the final
`throw new Error('Invalid direction')` branch.  (The `bottom` branch applies
`revertScaleX` to the y delta, as in the source.) -/
def resolveResizeDelta (cfg : SpaceConfig) (direction : String)
    (delta position : ℤ × ℤ) : Option ResizeResolution :=
  if direction == "bottom" then
    some { sizeDelta := (0, revertScaleX cfg delta.2), movePosition := none }
  else if direction == "right" then
    some { sizeDelta := (revertScaleX cfg delta.1, 0), movePosition := none }
  else if direction == "bottom-right" then
    some { sizeDelta := (revertScaleX cfg delta.1, revertScaleY cfg delta.2),
           movePosition := none }
  else if direction == "top" then
    some { sizeDelta := (0, -(revertScaleY cfg delta.2)),
           movePosition := some (position.1, position.2 + delta.2) }
  else if direction == "left" then
    some { sizeDelta := (-(revertScaleX cfg delta.1), 0),
           movePosition := some (position.1 + delta.1, position.2) }
  else if direction == "top-left" then
    some { sizeDelta := (-(revertScaleX cfg delta.1), -(revertScaleY cfg delta.2)),
           movePosition := some (position.1 + delta.1, position.2 + delta.2) }
  else if direction == "top-right" then
    some { sizeDelta := (revertScaleX cfg delta.1, -(revertScaleY cfg delta.2)),
           movePosition := some (position.1, position.2 + delta.2) }
  else if direction == "bottom-left" then
    some { sizeDelta := (-(revertScaleX cfg delta.1), revertScaleY cfg delta.2),
           movePosition := some (position.1 + delta.1, position.2) }
  else none

/-- Whether the resolver emits a position adjustment for a direction tag. -/
def emitsMove (cfg : SpaceConfig) (direction : String) (delta position : ℤ × ℤ) : Bool :=
  match resolveResizeDelta cfg direction delta position with
  | some r => r.movePosition.isSome
  | none => false

section RegistryLemmas

/-- On records produced by the in-place updater the id is unchanged. -/
theorem setUpdater_id (w x : SpaceWindow) :
    (if x.id == w.id then
      { x with position := w.position, size := w.size,
               clockPosition := w.clockPosition }
     else x).id = x.id := by
  by_cases h : x.id == w.id <;> simp [h]

/-- Claim C9: when a record with the same id is already present,
`SpaceWindows.set` updates it in place: afterwards `get` returns the old
record with only `position`, `size` and `clockPosition` overwritten (so
`moving`, `resizing`, `staged` are untouched), records with other ids are
kept as they are, the registry length is unchanged, and for every id the
number of records carrying it is unchanged (never a second record with the
same id). -/
theorem spaceWindows_set_updates_in_place (ws : List SpaceWindow)
    (w old : SpaceWindow) (hpresent : SpaceWindows.get ws w.id = some old) :
    SpaceWindows.get (SpaceWindows.set ws w) w.id =
      some { old with position := w.position, size := w.size,
                      clockPosition := w.clockPosition } ∧
    (∀ x ∈ ws, x.id ≠ w.id → x ∈ SpaceWindows.set ws w) ∧
    (SpaceWindows.set ws w).length = ws.length ∧
    (∀ d : String, (SpaceWindows.set ws w).countP (fun x => x.id == d) =
      ws.countP (fun x => x.id == d)) := by
  have hpresent' : ws.find? (fun x => x.id == w.id) = some old := hpresent
  have hmem : old ∈ ws := List.mem_of_find?_eq_some hpresent'
  have hold : (old.id == w.id) = true := by
    simpa using List.find?_some hpresent'
  have hany : ws.any (fun x => x.id == w.id) = true :=
    List.any_eq_true.mpr ⟨old, hmem, hold⟩
  set f : SpaceWindow → SpaceWindow := fun x =>
    if x.id == w.id then
      { x with position := w.position, size := w.size,
               clockPosition := w.clockPosition }
    else x with hf
  have hset : SpaceWindows.set ws w = ws.map f := by
    simp [SpaceWindows.set, hany, hf]
  have hpred : ∀ (d : String) (x : SpaceWindow),
      ((f x).id == d) = (x.id == d) := by
    intro d x
    have := setUpdater_id w x
    simp only [hf] at this ⊢
    rw [this]
  refine ⟨?_, ?_, ?_, ?_⟩
  · rw [hset]
    have : (ws.map f).find? (fun x => x.id == w.id) =
        (ws.find? (fun x => (f x).id == w.id)).map f := List.find?_map f ws
    have hcongr : (fun x => (f x).id == w.id) = (fun x : SpaceWindow => x.id == w.id) := by
      funext x; exact hpred w.id x
    rw [SpaceWindows.get, this, hcongr, hpresent']
    have hideq : old.id = w.id := by simpa using hold
    simp [hf, hideq]
  · intro x hx hne
    rw [hset]
    have hfx : f x = x := by
      simp only [hf]
      rw [if_neg]
      simp [hne]
    exact hfx ▸ List.mem_map_of_mem f hx
  · rw [hset, List.length_map]
  · intro d
    rw [hset, List.countP_map]
    apply List.countP_congr
    intro x _
    simp only [Function.comp_apply]
    rw [hpred d x]

/-- Witness for C9 at a concrete registry: a record with id `a` is present
(with `moving = true`, `staged = true`), and setting a fresh record with the
same id overwrites position/size/edge hint while keeping those flags. -/
theorem spaceWindows_set_updates_in_place_witness :
    SpaceWindows.get
        [({ id := "a", position := (0, 0), size := (10, 10), moving := true,
            resizing := false, staged := true, clockPosition := none } : SpaceWindow)]
        "a" =
      some { id := "a", position := (0, 0), size := (10, 10), moving := true,
             resizing := false, staged := true, clockPosition := none } ∧
    SpaceWindows.get
        (SpaceWindows.set
          [({ id := "a", position := (0, 0), size := (10, 10), moving := true,
              resizing := false, staged := true, clockPosition := none } : SpaceWindow)]
          { id := "a", position := (5, 5), size := (20, 20), moving := false,
            resizing := true, staged := false, clockPosition := some 1 })
        "a" =
      some { id := "a", position := (5, 5), size := (20, 20), moving := true,
             resizing := false, staged := true, clockPosition := some 1 } := by
  refine ⟨by decide, ?_⟩
  have h := spaceWindows_set_updates_in_place
    [({ id := "a", position := (0, 0), size := (10, 10), moving := true,
        resizing := false, staged := true, clockPosition := none } : SpaceWindow)]
    { id := "a", position := (5, 5), size := (20, 20), moving := false,
      resizing := true, staged := false, clockPosition := some 1 }
    { id := "a", position := (0, 0), size := (10, 10), moving := true,
      resizing := false, staged := true, clockPosition := none }
    (by decide)
  exact h.1

end RegistryLemmas

section SnappingEquality

/-- Counterexample for claim C7: two `Snapping` values with the same
orientation and the same (left, right) window id pair, whose left windows
differ in position, are not `equals`: equality is not decided by orientation
and the member ids alone. -/
theorem snapping_equals_not_by_ids_counterexample :
    ¬ ((SnappingV.equalsV
          { orientation := .horizontal,
            interactedWindow := { id := "b", position := (0, 0), size := (1, 1) },
            leftWindow := { id := "a", position := (0, 0), size := (1, 1) },
            rightWindow := { id := "b", position := (10, 0), size := (1, 1) } }
          (some
            { orientation := .horizontal,
              interactedWindow := { id := "b", position := (0, 0), size := (1, 1) },
              leftWindow := { id := "a", position := (5, 5), size := (1, 1) },
              rightWindow := { id := "b", position := (10, 0), size := (1, 1) } })) = true ↔
        (SnappingOrientation.horizontal = SnappingOrientation.horizontal ∧
         "a" = "a" ∧ "b" = "b")) := by
  decide

/-- Claim C7 as amended: `Snapping.equals` returns true exactly when the
other value is non-null, the orientations agree, and the left windows (and
likewise the right windows) agree on id, position, size, `moving` and
`resizing` — the window comparison uses `SpaceWindow.equals`, which inspects
those fields and not only the id. -/
theorem snapping_equals_characterization (a : SnappingV) (b : Option SnappingV) :
    SnappingV.equalsV a b = true ↔
      ∃ o, b = some o ∧ a.orientation = o.orientation ∧
        (a.leftWindow.id = o.leftWindow.id ∧
         a.leftWindow.position = o.leftWindow.position ∧
         a.leftWindow.size = o.leftWindow.size ∧
         a.leftWindow.moving = o.leftWindow.moving ∧
         a.leftWindow.resizing = o.leftWindow.resizing) ∧
        (a.rightWindow.id = o.rightWindow.id ∧
         a.rightWindow.position = o.rightWindow.position ∧
         a.rightWindow.size = o.rightWindow.size ∧
         a.rightWindow.moving = o.rightWindow.moving ∧
         a.rightWindow.resizing = o.rightWindow.resizing) := by
  cases b with
  | none => simp [SnappingV.equalsV]
  | some o =>
      simp only [SnappingV.equalsV, SpaceWindow.equalsW, Bool.and_eq_true,
        beq_iff_eq, Option.some.injEq, exists_eq_left', Prod.ext_iff]
      tauto

end SnappingEquality

section ResizeResolver

/-- Counterexample for claim C10: among the eight valid direction tags,
the resolver emits a position adjustment for five of them
(`top`, `left`, `top-left`, `top-right`, `bottom-left`), not four. -/
theorem resize_resolver_move_count_counterexample :
    (resizerDirections.filter
      (fun d => emitsMove
        { snapMargin := 20, snapThreshold := 50, snapWith := .all, scale := (1, 1) }
        d (3, 4) (10, 20))).length = 5 ∧ (5 : ℕ) ≠ 4 := by
  decide

/-- Claim C10 as amended: the resize-delta resolver raises (modelled as
`none`) exactly on a direction tag outside the eight valid values; on each of
the eight it completes, and it emits a position adjustment exactly for the
five directions that move the window's top or left edge: `top`, `left`,
`top-left`, `top-right` and `bottom-left`. -/
theorem resize_resolver_characterization (cfg : SpaceConfig) (d : String)
    (delta position : ℤ × ℤ) :
    (resolveResizeDelta cfg d delta position = none ↔ d ∉ resizerDirections) ∧
    (emitsMove cfg d delta position = true ↔
      d ∈ ["top", "left", "top-left", "top-right", "bottom-left"]) := by
  by_cases h1 : d = "bottom"
  · subst h1; simp [resolveResizeDelta, emitsMove, resizerDirections]
  · by_cases h2 : d = "right"
    · subst h2; simp [resolveResizeDelta, emitsMove, resizerDirections]
    · by_cases h3 : d = "bottom-right"
      · subst h3; simp [resolveResizeDelta, emitsMove, resizerDirections]
      · by_cases h4 : d = "top"
        · subst h4; simp [resolveResizeDelta, emitsMove, resizerDirections]
        · by_cases h5 : d = "left"
          · subst h5; simp [resolveResizeDelta, emitsMove, resizerDirections]
          · by_cases h6 : d = "top-left"
            · subst h6; simp [resolveResizeDelta, emitsMove, resizerDirections]
            · by_cases h7 : d = "top-right"
              · subst h7; simp [resolveResizeDelta, emitsMove, resizerDirections]
              · by_cases h8 : d = "bottom-left"
                · subst h8; simp [resolveResizeDelta, emitsMove, resizerDirections]
                · simp [resolveResizeDelta, emitsMove, resizerDirections,
                    h1, h2, h3, h4, h5, h6, h7, h8]

end ResizeResolver

section SnapControls

/-- The effect claimed for the shared mover, written from the specification:
each of the snap's two member windows gets exactly the delta added to its
position, other windows are untouched. -/
def movedBoth (l r : String) (delta : ℤ × ℤ) (w : CWindow) : CWindow :=
  if w.id = l ∨ w.id = r then
    { w with position := (w.position.1 + delta.1, w.position.2 + delta.2) }
  else w

/-- Claim C5: dispatching a mover drag delta over a committed snap's two
member windows applies exactly that delta to each member's position (and
nothing to any other window), so the relative offset between the two members
is unchanged. -/
theorem snap_mover_moves_both (l r : String) (delta : ℤ × ℤ) (ws : List CWindow)
    (wl wr : CWindow) (hlr : l ≠ r) (hwl : wl.id = l) (hwr : wr.id = r) :
    snapMoverDispatch [l, r] delta ws = ws.map (movedBoth l r delta) ∧
    (movedBoth l r delta wl).position.1 - (movedBoth l r delta wr).position.1 =
      wl.position.1 - wr.position.1 ∧
    (movedBoth l r delta wl).position.2 - (movedBoth l r delta wr).position.2 =
      wl.position.2 - wr.position.2 := by
  refine ⟨?_, ?_, ?_⟩
  · show ((ws.map (moveEventCallback l delta)).map (moveEventCallback r delta)) = _
    rw [List.map_map]
    apply List.map_congr_left
    intro w _
    simp only [Function.comp_apply, moveEventCallback, movedBoth, beq_iff_eq]
    have hrl : ¬ (r = l) := fun hc => hlr hc.symm
    by_cases h1 : w.id = l
    · have h2 : ¬ w.id = r := fun hc => hlr (h1 ▸ hc ▸ rfl)
      simp [h1, h2, hlr, hrl]
    · by_cases h2 : w.id = r
      · simp [h1, h2, hlr, hrl]
      · simp [h1, h2]
  · simp only [movedBoth, hwl, hwr]
    simp
  · simp only [movedBoth, hwl, hwr]
    simp

/-- Witness for C5 at a concrete snap: members `wa` at (0,0) and `wb` at
(120,0), mover delta (7,9); both positions advance by exactly (7,9). -/
theorem snap_mover_moves_both_witness :
    ("wa" ≠ "wb") ∧
      (({ id := "wa", position := (0, 0), size := (100, 100) } : CWindow).id = "wa") ∧
      (({ id := "wb", position := (120, 0), size := (100, 100) } : CWindow).id = "wb") ∧
    (snapMoverDispatch ["wa", "wb"] (7, 9)
        [{ id := "wa", position := (0, 0), size := (100, 100) },
         { id := "wb", position := (120, 0), size := (100, 100) }] =
      List.map (movedBoth "wa" "wb" (7, 9))
        [{ id := "wa", position := (0, 0), size := (100, 100) },
         { id := "wb", position := (120, 0), size := (100, 100) }] ∧
     (movedBoth "wa" "wb" (7, 9)
        { id := "wa", position := (0, 0), size := (100, 100) }).position.1 -
       (movedBoth "wa" "wb" (7, 9)
        { id := "wb", position := (120, 0), size := (100, 100) }).position.1 =
       (({ id := "wa", position := (0, 0), size := (100, 100) } : CWindow)).position.1 -
       (({ id := "wb", position := (120, 0), size := (100, 100) } : CWindow)).position.1 ∧
     (movedBoth "wa" "wb" (7, 9)
        { id := "wa", position := (0, 0), size := (100, 100) }).position.2 -
       (movedBoth "wa" "wb" (7, 9)
        { id := "wb", position := (120, 0), size := (100, 100) }).position.2 =
       (({ id := "wa", position := (0, 0), size := (100, 100) } : CWindow)).position.2 -
       (({ id := "wb", position := (120, 0), size := (100, 100) } : CWindow)).position.2) :=
  ⟨by decide, by decide, by decide,
   snap_mover_moves_both "wa" "wb" (7, 9)
     [{ id := "wa", position := (0, 0), size := (100, 100) },
      { id := "wb", position := (120, 0), size := (100, 100) }]
     { id := "wa", position := (0, 0), size := (100, 100) }
     { id := "wb", position := (120, 0), size := (100, 100) }
     (by decide) (by decide) (by decide)⟩

end SnapControls


section SnapResizerClaims

/-- When the candidate size respects both bounds, the clamp of
`resizeEventCallback` is the identity. -/
theorem clampSize_id (minS maxS : Option (ℤ × ℤ)) (s : ℤ × ℤ)
    (hmin : ∀ m, minS = some m → m.1 ≤ s.1 ∧ m.2 ≤ s.2)
    (hmax : ∀ m, maxS = some m → s.1 ≤ m.1 ∧ s.2 ≤ m.2) :
    clampSize minS maxS s = s := by
  rcases minS with _ | m <;> rcases maxS with _ | m'
  · simp [clampSize]
  · have h := hmax m' rfl
    have h1 : ¬ (s.1 > m'.1) := by omega
    have h2 : ¬ (s.2 > m'.2) := by omega
    simp only [clampSize]
    rw [if_neg h1, if_neg h2]
  · have h := hmin m rfl
    have h1 : ¬ (s.1 < m.1) := by omega
    have h2 : ¬ (s.2 < m.2) := by omega
    simp only [clampSize]
    rw [if_neg h1, if_neg h2]
  · have h := hmin m rfl
    have h' := hmax m' rfl
    have h1 : ¬ (s.1 < m.1) := by omega
    have h2 : ¬ (s.2 < m.2) := by omega
    simp only [clampSize]
    rw [if_neg h1, if_neg h2]
    have h3 : ¬ (s.1 > m'.1) := by omega
    have h4 : ¬ (s.2 > m'.2) := by omega
    rw [if_neg h3, if_neg h4]

/-- Counterexample for claim C6: with the source's default `minSize`
(100, 100), a resizer drag of `dx = -10` over a left member of width 100 and
a right member of width 100 leaves the left width clamped at 100 instead of
decreasing it by 10 to 90, and the previously coincident shared edge
(left.x + left.width = 100 = right.x) is broken: the right member's x becomes
90 while the left edge stays at 100. -/
theorem snap_resizer_clamp_counterexample :
    snapResizerDispatch
        { snapMargin := 20, snapThreshold := 50, snapWith := .all, scale := (1, 1) }
        "L" "R" (-10)
        [{ id := "L", position := (0, 0), size := (100, 100) },
         { id := "R", position := (100, 0), size := (100, 100) }] =
      [{ id := "L", position := (0, 0), size := (100, 100) },
       { id := "R", position := (90, 0), size := (110, 100) }] ∧
    ((0 : ℤ) + 0 + 100 = 100) ∧
    ((100 : ℤ) ≠ 100 + (-10)) ∧
    ((0 : ℤ) + 100 ≠ 90) := by
  decide

/-- Claim C6 as amended: at unit horizontal scale and when neither member's
clamped size hits its `minSize`/`maxSize` bounds, dispatching a resizer drag
`dx` over the snap's member pair adds `dx` to the left member's width,
subtracts `dx` from the right member's width, adds `dx` to the right member's
x position, and preserves coincidence of the shared edge. -/
theorem snap_resizer_keeps_edge (cfg : SpaceConfig) (l r : String)
    (wl wr : CWindow) (dx : ℤ) (hlr : l ≠ r) (hwl : wl.id = l) (hwr : wr.id = r)
    (hsx : cfg.scale.1 = 1)
    (hminl : ∀ m, wl.minSize = some m → m.1 ≤ wl.size.1 + dx ∧ m.2 ≤ wl.size.2)
    (hmaxl : ∀ m, wl.maxSize = some m → wl.size.1 + dx ≤ m.1 ∧ wl.size.2 ≤ m.2)
    (hminr : ∀ m, wr.minSize = some m → m.1 ≤ wr.size.1 - dx ∧ m.2 ≤ wr.size.2)
    (hmaxr : ∀ m, wr.maxSize = some m → wr.size.1 - dx ≤ m.1 ∧ wr.size.2 ≤ m.2) :
    snapResizerDispatch cfg l r dx [wl, wr] =
      [{ wl with size := (wl.size.1 + dx, wl.size.2) },
       { wr with position := (wr.position.1 + dx, wr.position.2),
                 size := (wr.size.1 - dx, wr.size.2) }] ∧
    (wl.position.1 + wl.size.1 = wr.position.1 →
      wl.position.1 + (wl.size.1 + dx) = wr.position.1 + dx) := by
  have hrl : ¬ (r = l) := fun hc => hlr hc.symm
  have hwlr : ¬ (wl.id = r) := fun hc => hlr (hwl ▸ hc ▸ rfl)
  have hwrl : ¬ (wr.id = l) := fun hc => hrl (hwr ▸ hc ▸ rfl)
  have hdx : revertScaleX cfg dx = dx := by
    simp [revertScaleX, hsx]
  constructor
  · simp only [snapResizerDispatch, List.map_cons, List.map_nil, hdx]
    have hcl : clampSize wl.minSize wl.maxSize (wl.size.1 + dx, wl.size.2) =
        (wl.size.1 + dx, wl.size.2) := by
      apply clampSize_id
      · intro m hm
        have := hminl m hm
        constructor <;> omega
      · intro m hm
        have := hmaxl m hm
        constructor <;> omega
    have stepL : resizeEventCallback l (dx, 0) wl =
        { wl with size := (wl.size.1 + dx, wl.size.2) } := by
      simp [resizeEventCallback, hwl, hcl]
    have stepL2 : resizeEventCallback r (-dx, 0)
        ({ wl with size := (wl.size.1 + dx, wl.size.2) } : CWindow) =
        { wl with size := (wl.size.1 + dx, wl.size.2) } := by
      simp [resizeEventCallback, hwlr]
    have stepL3 : moveEventCallback r (dx, 0)
        ({ wl with size := (wl.size.1 + dx, wl.size.2) } : CWindow) =
        { wl with size := (wl.size.1 + dx, wl.size.2) } := by
      simp [moveEventCallback, hwlr]
    have stepR1 : resizeEventCallback l (dx, 0) wr = wr := by
      simp [resizeEventCallback, hwrl]
    have hcr : clampSize wr.minSize wr.maxSize (wr.size.1 - dx, wr.size.2) =
        (wr.size.1 - dx, wr.size.2) := by
      apply clampSize_id
      · intro m hm
        have := hminr m hm
        constructor <;> omega
      · intro m hm
        have := hmaxr m hm
        constructor <;> omega
    have harith : wr.size.1 + -dx = wr.size.1 - dx := by ring
    have stepR2 : resizeEventCallback r (-dx, 0) wr =
        { wr with size := (wr.size.1 - dx, wr.size.2) } := by
      simp [resizeEventCallback, hwr, hcr, harith]
    have stepR3 : moveEventCallback r (dx, 0)
        ({ wr with size := (wr.size.1 - dx, wr.size.2) } : CWindow) =
        { wr with position := (wr.position.1 + dx, wr.position.2),
                  size := (wr.size.1 - dx, wr.size.2) } := by
      simp [moveEventCallback, hwr]
    rw [stepL, stepL2, stepL3, stepR1, stepR2, stepR3]
  · intro h
    omega

/-- Witness for C6 at a concrete snap: left member at (0,0) with width 200,
right member at (200,0) with width 300, both with the default `minSize`
(100,100), drag `dx = 10` at unit scale; widths become 210 and 290, the right
member moves to x = 210, and the shared edge stays coincident. -/
theorem snap_resizer_keeps_edge_witness :
    ("L" ≠ "R") ∧
    (snapResizerDispatch
        { snapMargin := 20, snapThreshold := 50, snapWith := .all, scale := (1, 1) }
        "L" "R" 10
        [{ id := "L", position := (0, 0), size := (200, 100) },
         { id := "R", position := (200, 0), size := (300, 100) }] =
      [{ id := "L", position := (0, 0), size := (210, 100) },
       { id := "R", position := (210, 0), size := (290, 100) }] ∧
     ((0 : ℤ) + 200 = 200 → (0 : ℤ) + (200 + 10) = 200 + 10)) := by
  refine ⟨by decide, ?_⟩
  have h := snap_resizer_keeps_edge
    { snapMargin := 20, snapThreshold := 50, snapWith := .all, scale := (1, 1) }
    "L" "R"
    { id := "L", position := (0, 0), size := (200, 100) }
    { id := "R", position := (200, 0), size := (300, 100) }
    10 (by decide) (by decide) (by decide) (by decide)
    (by intro m hm; simp at hm; subst hm; exact ⟨by decide, by decide⟩)
    (by intro m hm; simp at hm)
    (by intro m hm; simp at hm; subst hm; exact ⟨by decide, by decide⟩)
    (by intro m hm; simp at hm)
  exact ⟨h.1, fun _ => by decide⟩

end SnapResizerClaims

section ProximityClaims

/-- Writing the edge hint does not change a record's id. -/
theorem applyProximity_id (cfg : SpaceConfig) (id : String) (p s : ℤ × ℤ)
    (w : SpaceWindow) : (applyProximity cfg id p s w).id = w.id := by
  unfold applyProximity
  split_ifs <;> rfl

/-- Writing the edge hint does not change candidacy (the test only reads id,
staged flag, position and size). -/
theorem isCandidate_applyProximity (cfg : SpaceConfig) (id : String)
    (p s : ℤ × ℤ) (w : SpaceWindow) :
    isCandidate cfg id p s (applyProximity cfg id p s w) =
      isCandidate cfg id p s w := by
  unfold applyProximity
  split_ifs with h
  · simp [isCandidate, candidateHint, scaleX, scaleY] at h ⊢
  · rfl

/-- Unfolding of `nearbyOf` on a cons cell. -/
theorem nearbyOf_cons (cfg : SpaceConfig) (id : String) (p s : ℤ × ℤ)
    (h : SpaceWindow) (t : List SpaceWindow) :
    nearbyOf cfg id p s (h :: t) =
      (if isCandidate cfg id p s h then [applyProximity cfg id p s h] else []) ++
        nearbyOf cfg id p s t := by
  simp only [nearbyOf, List.map_cons, List.filter_cons, isCandidate_applyProximity]
  split_ifs <;> simp

/-- If no record of the registry carries id `b`, neither does any collected
candidate. -/
theorem nearbyOf_countP_eq_zero (cfg : SpaceConfig) (id : String) (p s : ℤ × ℤ)
    (b : String) (ws : List SpaceWindow)
    (hz : ws.countP (fun w => w.id == b) = 0) :
    (nearbyOf cfg id p s ws).countP (fun w => w.id == b) = 0 := by
  induction ws with
  | nil => simp [nearbyOf]
  | cons h t ih =>
      rw [List.countP_cons] at hz
      have hzh : (h.id == b) = false := by
        cases hbe : (h.id == b) with
        | false => rfl
        | true => rw [hbe] at hz; simp at hz
      have hzt : t.countP (fun w => w.id == b) = 0 := by
        rw [hzh] at hz
        simpa using hz
      rw [nearbyOf_cons, List.countP_append, ih hzt]
      split_ifs with hq
      · simp [applyProximity_id, hzh]
      · simp

/-- Membership and hint bookkeeping for one candidate window: when `b` is the
unique registry record with its id, the collected candidates contain exactly
one record with that id when `b` qualifies (none otherwise), and that record
carries the hint freshly written on `b`. -/
theorem nearbyOf_count_of_unique (cfg : SpaceConfig) (id : String)
    (p s : ℤ × ℤ) (b : SpaceWindow) (ws : List SpaceWindow) (hmem : b ∈ ws)
    (huniq : ws.countP (fun w => w.id == b.id) = 1) :
    (nearbyOf cfg id p s ws).countP (fun w => w.id == b.id) =
      (if isCandidate cfg id p s b then 1 else 0) ∧
    (nearbyOf cfg id p s ws).countP
        (fun w => w.id == b.id &&
          w.clockPosition == (applyProximity cfg id p s b).clockPosition) =
      (if isCandidate cfg id p s b then 1 else 0) := by
  induction ws with
  | nil => cases hmem
  | cons h t ih =>
      rw [List.countP_cons] at huniq
      by_cases hh : (h.id == b.id) = true
      · have hzt : t.countP (fun w => w.id == b.id) = 0 := by
          rw [hh] at huniq
          simpa using huniq
        have hbt : b ∉ t := by
          intro hbt
          have : 0 < t.countP (fun w => w.id == b.id) :=
            List.countP_pos_iff.mpr ⟨b, hbt, by simp⟩
          omega
        have hbh : b = h := by
          rcases List.mem_cons.mp hmem with h1 | h1
          · exact h1
          · exact absurd h1 hbt
        subst hbh
        have hz1 := nearbyOf_countP_eq_zero cfg id p s b.id t hzt
        have hz2 : (nearbyOf cfg id p s t).countP
            (fun w => w.id == b.id &&
              w.clockPosition == (applyProximity cfg id p s b).clockPosition) = 0 := by
          have hle : (nearbyOf cfg id p s t).countP
              (fun w => w.id == b.id &&
                w.clockPosition == (applyProximity cfg id p s b).clockPosition) ≤
              (nearbyOf cfg id p s t).countP (fun w => w.id == b.id) :=
            List.countP_mono_left (fun w _ hw => by
              simp only [Bool.and_eq_true] at hw
              exact hw.1)
          omega
        rw [nearbyOf_cons, List.countP_append, List.countP_append, hz1, hz2]
        constructor
        · split_ifs with hq <;> simp [applyProximity_id]
        · split_ifs with hq <;> simp [applyProximity_id]
      · have hhf : (h.id == b.id) = false := by
          cases hbe : (h.id == b.id) with
          | false => rfl
          | true => exact absurd hbe hh
        have hbt : b ∈ t := by
          rcases List.mem_cons.mp hmem with h1 | h1
          · subst h1
            simp at hhf
          · exact h1
        have hut : t.countP (fun w => w.id == b.id) = 1 := by
          rw [hhf] at huniq
          simpa using huniq
        obtain ⟨t1, t2⟩ := ih hbt hut
        rw [nearbyOf_cons, List.countP_append, List.countP_append, t1, t2]
        constructor
        · split_ifs with hq <;> simp [applyProximity_id, hhf]
        · split_ifs with hq <;> simp [applyProximity_id, hhf]

end ProximityClaims

section ProximityMain

/-- Claim C2: for a candidate neighbour `b` of the interacting window
(`b.id ≠ id`, not staged, unique in the registry), the proximity evaluation
works in scaled space and reports exactly one candidate relationship with the
correct edge hint: if the left-neighbour gaps (`|b.right − A.left|`, top,
bottom) are all within `snapThreshold`, `b` is collected exactly once with
hint 0; otherwise, if the mirrored right-neighbour gap together with the same
top/bottom gaps is within the threshold, `b` is collected exactly once with
hint 1; otherwise `b` is not collected.  This holds for every scale
vector. -/
theorem snap_proximity_exactly_one (cfg : SpaceConfig) (id : String)
    (position size : ℤ × ℤ) (ws : List SpaceWindow) (b : SpaceWindow)
    (hmem : b ∈ ws) (hbid : ¬ b.id = id) (hbstaged : b.staged = false)
    (huniq : ws.countP (fun w => w.id == b.id) = 1) :
    ((|(b.position.1 + scaleX cfg b.size.1) - position.1| ≤ cfg.snapThreshold ∧
      |b.position.2 - position.2| ≤ cfg.snapThreshold ∧
      |(b.position.2 + scaleY cfg b.size.2) -
        (position.2 + scaleY cfg size.2)| ≤ cfg.snapThreshold) →
      ((nearbyOf cfg id position size ws).countP (fun w => w.id == b.id) = 1 ∧
       (nearbyOf cfg id position size ws).countP
         (fun w => w.id == b.id && w.clockPosition == some 0) = 1)) ∧
    ((¬ (|(b.position.1 + scaleX cfg b.size.1) - position.1| ≤ cfg.snapThreshold ∧
         |b.position.2 - position.2| ≤ cfg.snapThreshold ∧
         |(b.position.2 + scaleY cfg b.size.2) -
           (position.2 + scaleY cfg size.2)| ≤ cfg.snapThreshold) ∧
      (|b.position.1 - (position.1 + scaleX cfg size.1)| ≤ cfg.snapThreshold ∧
       |b.position.2 - position.2| ≤ cfg.snapThreshold ∧
       |(b.position.2 + scaleY cfg b.size.2) -
         (position.2 + scaleY cfg size.2)| ≤ cfg.snapThreshold)) →
      ((nearbyOf cfg id position size ws).countP (fun w => w.id == b.id) = 1 ∧
       (nearbyOf cfg id position size ws).countP
         (fun w => w.id == b.id && w.clockPosition == some 1) = 1)) ∧
    ((¬ (|(b.position.1 + scaleX cfg b.size.1) - position.1| ≤ cfg.snapThreshold ∧
         |b.position.2 - position.2| ≤ cfg.snapThreshold ∧
         |(b.position.2 + scaleY cfg b.size.2) -
           (position.2 + scaleY cfg size.2)| ≤ cfg.snapThreshold) ∧
      ¬ (|b.position.1 - (position.1 + scaleX cfg size.1)| ≤ cfg.snapThreshold ∧
         |b.position.2 - position.2| ≤ cfg.snapThreshold ∧
         |(b.position.2 + scaleY cfg b.size.2) -
           (position.2 + scaleY cfg size.2)| ≤ cfg.snapThreshold)) →
      (nearbyOf cfg id position size ws).countP (fun w => w.id == b.id) = 0) := by
  obtain ⟨hc1, hc2⟩ := nearbyOf_count_of_unique cfg id position size b ws hmem huniq
  have hbidb : (b.id == id) = false := by
    cases hbe : (b.id == id) with
    | false => rfl
    | true => exact absurd (by simpa using hbe) hbid
  have hcand : isCandidate cfg id position size b =
      (candidateHint cfg position size b).isSome := by
    simp [isCandidate, hbidb, hbstaged]
  refine ⟨?_, ?_, ?_⟩
  · intro hleft
    have hhint : candidateHint cfg position size b = some 0 := by
      simp only [candidateHint]
      rw [if_pos hleft]
    have hq : isCandidate cfg id position size b = true := by
      rw [hcand, hhint]
      rfl
    have happly : (applyProximity cfg id position size b).clockPosition = some 0 := by
      simp [applyProximity, hq, hhint]
    rw [hq, if_pos rfl] at hc1 hc2
    rw [happly] at hc2
    exact ⟨hc1, hc2⟩
  · rintro ⟨hnl, hright⟩
    have hhint : candidateHint cfg position size b = some 1 := by
      simp only [candidateHint]
      rw [if_neg hnl, if_pos hright]
    have hq : isCandidate cfg id position size b = true := by
      rw [hcand, hhint]
      rfl
    have happly : (applyProximity cfg id position size b).clockPosition = some 1 := by
      simp [applyProximity, hq, hhint]
    rw [hq, if_pos rfl] at hc1 hc2
    rw [happly] at hc2
    exact ⟨hc1, hc2⟩
  · rintro ⟨hnl, hnr⟩
    have hhint : candidateHint cfg position size b = none := by
      simp only [candidateHint]
      rw [if_neg hnl, if_neg hnr]
    have hq : isCandidate cfg id position size b = false := by
      rw [hcand, hhint]
      rfl
    rw [hq] at hc1
    simpa using hc1

/-- Witness for C2 at scale (2,3): window `A` interacting at (100,100) size
(50,40), candidate `B` at (20,110) size (15,40); the left-neighbour gaps in
scaled space are 50, 10 and 10, all within the threshold 50, and `B` is
collected exactly once with edge hint 0. -/
theorem snap_proximity_exactly_one_witness :
    (({ id := "B", position := (20, 110), size := (15, 40) } : SpaceWindow) ∈
        [({ id := "B", position := (20, 110), size := (15, 40) } : SpaceWindow)]) ∧
    (¬ ({ id := "B", position := (20, 110), size := (15, 40) } : SpaceWindow).id = "A") ∧
    (({ id := "B", position := (20, 110), size := (15, 40) } : SpaceWindow).staged = false) ∧
    ([({ id := "B", position := (20, 110), size := (15, 40) } : SpaceWindow)].countP
        (fun w => w.id == "B") = 1) ∧
    ((nearbyOf
        { snapMargin := 20, snapThreshold := 50, snapWith := .all, scale := (2, 3) }
        "A" (100, 100) (50, 40)
        [{ id := "B", position := (20, 110), size := (15, 40) }]).countP
      (fun w => w.id == "B") = 1 ∧
     (nearbyOf
        { snapMargin := 20, snapThreshold := 50, snapWith := .all, scale := (2, 3) }
        "A" (100, 100) (50, 40)
        [{ id := "B", position := (20, 110), size := (15, 40) }]).countP
      (fun w => w.id == "B" && w.clockPosition == some 0) = 1) := by
  refine ⟨by decide, by decide, by decide, by decide, ?_⟩
  have h := snap_proximity_exactly_one
    { snapMargin := 20, snapThreshold := 50, snapWith := .all, scale := (2, 3) }
    "A" (100, 100) (50, 40)
    [{ id := "B", position := (20, 110), size := (15, 40) }]
    { id := "B", position := (20, 110), size := (15, 40) }
    (by decide) (by decide) (by decide) (by decide)
  exact h.1 (by decide)

end ProximityMain

section AmbiguousClaims

/-- The stale-snap cleanup only removes snaps. -/
theorem cleanupStale_subset (nearby : List SpaceWindow) (ex : List Snap) :
    ∀ snaps x, x ∈ cleanupStale nearby ex snaps → x ∈ snaps := by
  induction ex with
  | nil =>
      intro snaps x hx
      simpa [cleanupStale] using hx
  | cons e rest ih =>
      intro snaps x hx
      rw [cleanupStale] at hx
      have hx' := ih _ x hx
      split at hx'
      · exact List.mem_of_mem_filter hx'
      · exact hx'

/-- The loop in the ambiguous branch only removes snaps. -/
theorem ambiguousLoop_subset (id : String) (nearby : List SpaceWindow) :
    ∀ snaps x, x ∈ ambiguousLoop id nearby snaps → x ∈ snaps := by
  induction nearby with
  | nil =>
      intro snaps x hx
      simpa [ambiguousLoop] using hx
  | cons nw rest ih =>
      intro snaps x hx
      rw [ambiguousLoop] at hx
      have hx' := ih _ x hx
      split at hx'
      · exact List.mem_of_mem_filter hx'
      · exact hx'

/-- Claim C4: on a (non-staged) bounds-change evaluation whose qualifying
candidate set has zero elements or more than two, the tentative `Snapping`
and the pending `ToSnap` are cleared, and the resulting snap list contains no
snap involving the interacting window and adds none: every remaining snap was
already present before the call. -/
theorem ambiguous_count_clears_snaps (cfg : SpaceConfig) (s : SpaceState)
    (id : String) (position size : ℤ × ℤ) (moving resizing : Bool)
    (hcount :
      (nearbyOf cfg id position size (SpaceWindows.set s.windows
        { id := id, position := position, size := size, moving := moving,
          resizing := resizing, staged := false, clockPosition := none })).length = 0 ∨
      (nearbyOf cfg id position size (SpaceWindows.set s.windows
        { id := id, position := position, size := size, moving := moving,
          resizing := resizing, staged := false, clockPosition := none })).length > 2) :
    (onWindowBoundsChange cfg s id position size moving resizing false).snapping = none ∧
    (onWindowBoundsChange cfg s id position size moving resizing false).toSnap = none ∧
    ∀ sn ∈ (onWindowBoundsChange cfg s id position size moving resizing false).snaps,
      sn ∈ s.snaps ∧ ¬ (sn.hasMember id = true) := by
  rw [nearbyOf] at hcount
  rw [onWindowBoundsChange]
  simp only [Bool.false_eq_true, if_false]
  rw [if_pos hcount]
  refine ⟨rfl, rfl, ?_⟩
  intro sn hsn
  have h1 := ambiguousLoop_subset id _ _ sn hsn
  have h2 := List.mem_filter.mp h1
  constructor
  · exact cleanupStale_subset _ _ _ sn h2.1
  · simpa using h2.2

/-- Witness for C4: the claim's three-window scenario.  The dragged window
`D` at (300,300) size (100,100) has three neighbours `A`, `B`, `C` all
within the threshold 50 (each pairwise check qualifies individually), so the
candidate count is 3 (> 2): the evaluation clears the tentative state and
produces an empty snap list. -/
theorem ambiguous_count_clears_snaps_witness :
    ((nearbyOf
        { snapMargin := 20, snapThreshold := 50, snapWith := .all, scale := (1, 1) }
        "D" (300, 300) (100, 100)
        (SpaceWindows.set
          [{ id := "A", position := (190, 295), size := (100, 100) },
           { id := "B", position := (405, 300), size := (100, 100) },
           { id := "C", position := (195, 310), size := (100, 100) }]
          { id := "D", position := (300, 300), size := (100, 100),
            moving := true, resizing := false, staged := false,
            clockPosition := none })).length = 3) ∧
    ((onWindowBoundsChange
        { snapMargin := 20, snapThreshold := 50, snapWith := .all, scale := (1, 1) }
        { windows :=
            [{ id := "A", position := (190, 295), size := (100, 100) },
             { id := "B", position := (405, 300), size := (100, 100) },
             { id := "C", position := (195, 310), size := (100, 100) }],
          snaps := [], snapping := none, toSnap := none }
        "D" (300, 300) (100, 100) true false false).snapping = none ∧
     (onWindowBoundsChange
        { snapMargin := 20, snapThreshold := 50, snapWith := .all, scale := (1, 1) }
        { windows :=
            [{ id := "A", position := (190, 295), size := (100, 100) },
             { id := "B", position := (405, 300), size := (100, 100) },
             { id := "C", position := (195, 310), size := (100, 100) }],
          snaps := [], snapping := none, toSnap := none }
        "D" (300, 300) (100, 100) true false false).toSnap = none ∧
     (onWindowBoundsChange
        { snapMargin := 20, snapThreshold := 50, snapWith := .all, scale := (1, 1) }
        { windows :=
            [{ id := "A", position := (190, 295), size := (100, 100) },
             { id := "B", position := (405, 300), size := (100, 100) },
             { id := "C", position := (195, 310), size := (100, 100) }],
          snaps := [], snapping := none, toSnap := none }
        "D" (300, 300) (100, 100) true false false).snaps = []) := by
  refine ⟨by decide, ?_⟩
  have h := ambiguous_count_clears_snaps
    { snapMargin := 20, snapThreshold := 50, snapWith := .all, scale := (1, 1) }
    { windows :=
        [{ id := "A", position := (190, 295), size := (100, 100) },
         { id := "B", position := (405, 300), size := (100, 100) },
         { id := "C", position := (195, 310), size := (100, 100) }],
      snaps := [], snapping := none, toSnap := none }
    "D" (300, 300) (100, 100) true false
    (Or.inr (by decide))
  exact ⟨h.1, h.2.1, by decide⟩

end AmbiguousClaims

section CommitClaims

/-- Claim C1: when a drag or resize ends (`onUserBoundsChangeEnd` with the
ended interaction's flags cleared) while a tentative horizontal `Snapping` is
active and the `snapWith` gate passes, the engine emits a one-shot `ToSnap`
placing the released window flush against its partner — at
`(partner.right + snapMargin, partner.top)` when the partner is the left
neighbour (edge hint 0), at `(partner.left − scaledMovedWidth − snapMargin,
partner.top)` when it is the right neighbour (edge hint 1) — with the new
size forcing the released window's height equal to the partner's height; the
committed `Snap` is appended to the list purged of the released window. -/
theorem commit_emits_flush_tosnap (cfg : SpaceConfig) (s : SpaceState)
    (id : String) (size : ℤ × ℤ) (moving resizing : Bool) (sn : Snapping)
    (other : SpaceWindow) (c : Nat)
    (hsn : s.snapping = some sn)
    (hpolicy : endPolicyOk cfg.snapWith moving resizing = true)
    (hor : sn.orientation = .horizontal)
    (hgetid : (SpaceWindows.get s.windows id).isSome = true)
    (hother : SpaceWindows.get s.windows (otherIdOf sn id) = some other)
    (hstaged : other.staged = false)
    (hclock : other.clockPosition = some c) (hc : c = 0 ∨ c = 1)
    (hsx : cfg.scale.1 ≠ 0) (hsy : cfg.scale.2 ≠ 0) :
    (onUserBoundsChangeEnd cfg s id size moving resizing false).toSnap =
      some { targetId := sn.interactedId,
             windowIds := [sn.leftId, sn.rightId],
             newPosition :=
               if c = 0 then
                 (other.position.1 + scaleX cfg other.size.1 + cfg.snapMargin,
                  other.position.2)
               else
                 (other.position.1 - scaleX cfg size.1 - cfg.snapMargin,
                  other.position.2),
             newSize := (size.1, other.size.2) } ∧
    (onUserBoundsChangeEnd cfg s id size moving resizing false).snaps =
      s.snaps.filter (fun x => !x.hasMember id) ++
        [{ orientation := .horizontal, interactedId := sn.interactedId,
           relatedIds := sn.relatedIds, leftId := sn.leftId,
           rightId := sn.rightId }] := by
  obtain ⟨iw, hiw⟩ := Option.isSome_iff_exists.mp hgetid
  have e1 : revertScaleX cfg (scaleX cfg size.1) = size.1 := by
    simp only [revertScaleX, scaleX]
    exact Int.mul_ediv_cancel _ hsx
  have e2 : revertScaleY cfg (scaleY cfg other.size.2) = other.size.2 := by
    simp only [revertScaleY, scaleY]
    exact Int.mul_ediv_cancel _ hsy
  rw [onUserBoundsChangeEnd, hsn]
  simp only [onUserBoundsChangeEndAux, hpolicy, if_true, hiw, hother, hor,
    if_pos rfl, hstaged, Bool.or_false, Bool.false_eq_true, if_false, hclock]
  rcases hc with hc | hc
  · subst hc
    simp [e1, e2]
  · subst hc
    simp [e1, e2]

/-- Witness for C1: the specification's concrete scenario at scale (1,1),
threshold 50, margin 20.  Window `A` sits at (100,100) with size (200,150);
window `B` is released at (305,105) with size (200,150) after a move that
formed the tentative snapping with `A` as left neighbour; the committed
`ToSnap` repositions `B` to (320,100) = (100+200+20, 100) and forces its
height to 150. -/
theorem commit_emits_flush_tosnap_witness :
    ((onWindowBoundsChange
        { snapMargin := 20, snapThreshold := 50, snapWith := .all, scale := (1, 1) }
        { windows := [{ id := "A", position := (100, 100), size := (200, 150) }],
          snaps := [], snapping := none, toSnap := none }
        "B" (305, 105) (200, 150) true false false).snapping =
      some { orientation := .horizontal, interactedId := "B",
             relatedIds := ["A", "B"], leftId := "A", rightId := "B" }) ∧
    ((onUserBoundsChangeEnd
        { snapMargin := 20, snapThreshold := 50, snapWith := .all, scale := (1, 1) }
        (onWindowBoundsChange
          { snapMargin := 20, snapThreshold := 50, snapWith := .all, scale := (1, 1) }
          { windows := [{ id := "A", position := (100, 100), size := (200, 150) }],
            snaps := [], snapping := none, toSnap := none }
          "B" (305, 105) (200, 150) true false false)
        "B" (200, 150) false false false).toSnap =
      some { targetId := "B", windowIds := ["A", "B"],
             newPosition := (320, 100), newSize := (200, 150) }) := by
  refine ⟨by decide, ?_⟩
  have h := commit_emits_flush_tosnap
    { snapMargin := 20, snapThreshold := 50, snapWith := .all, scale := (1, 1) }
    (onWindowBoundsChange
      { snapMargin := 20, snapThreshold := 50, snapWith := .all, scale := (1, 1) }
      { windows := [{ id := "A", position := (100, 100), size := (200, 150) }],
        snaps := [], snapping := none, toSnap := none }
      "B" (305, 105) (200, 150) true false false)
    "B" (200, 150) false false
    { orientation := .horizontal, interactedId := "B",
      relatedIds := ["A", "B"], leftId := "A", rightId := "B" }
    { id := "A", position := (100, 100), size := (200, 150), moving := false,
      resizing := false, staged := false, clockPosition := some 0 }
    0
    (by decide) (by decide) (by decide) (by decide) (by decide) (by decide)
    (by decide) (Or.inl rfl) (by decide) (by decide)
  rw [h.1]
  decide

end CommitClaims

section SnapUniquenessClaims

/-- Engine run for the shared-partner scenario: `A` at (0,0) is registered,
`B` at (120,0) is dragged next to `A` and released (committing snap `A`–`B`),
then `C` at (240,0) is dragged next to `B` and released (committing snap
`B`–`C`).  All windows are 100×100, threshold 50, margin 20, scale (1,1). -/
def sharedPartnerRun : SpaceState :=
  let cfg : SpaceConfig :=
    { snapMargin := 20, snapThreshold := 50, snapWith := .all, scale := (1, 1) }
  let s0 : SpaceState := { windows := [], snaps := [], snapping := none, toSnap := none }
  let s1 := onWindowBoundsChange cfg s0 "A" (0, 0) (100, 100) false false false
  let s2 := onWindowBoundsChange cfg s1 "B" (120, 0) (100, 100) true false false
  let s3 := onUserBoundsChangeEnd cfg s2 "B" (100, 100) false false false
  let s4 := onWindowBoundsChange cfg s3 "C" (240, 0) (100, 100) true false false
  onUserBoundsChangeEnd cfg s4 "C" (100, 100) false false false

/-- Counterexample for claim C3: after the shared-partner run, window `B` is
a member of two committed snaps at once — committing `B`–`C` only filtered
out snaps containing the interacted window `C`, leaving the earlier `A`–`B`
snap in place. -/
theorem snap_member_twice_counterexample :
    sharedPartnerRun.snaps.countP (fun sn => sn.hasMember "B") = 2 ∧
    ¬ (sharedPartnerRun.snaps.countP (fun sn => sn.hasMember "B") ≤ 1) := by
  decide

/-- Snaps surviving the pre-insert purge never contain the purged id. -/
theorem countP_hasMember_filter_not (snaps : List Snap) (id : String) :
    (snaps.filter (fun x => !x.hasMember id)).countP
      (fun x => x.hasMember id) = 0 := by
  apply List.countP_eq_zero.mpr
  intro x hx
  have h2 := (List.mem_filter.mp hx).2
  simp only [Bool.not_eq_true'] at h2
  simp [h2]

/-- Claim C3 as amended: committing a snap first removes every existing snap
containing the *interacted* window's id, so immediately after a committing
bounds-change-end the interacted window belongs to at most one snap.  (Snaps
sharing only the partner's id are not removed, so — as the counterexample
shows — the partner can belong to two committed snaps.) -/
theorem commit_interacted_in_at_most_one_snap (cfg : SpaceConfig)
    (s : SpaceState) (id : String) (size : ℤ × ℤ) (moving resizing : Bool)
    (sn : Snapping) (other : SpaceWindow) (c : Nat)
    (hsn : s.snapping = some sn)
    (hpolicy : endPolicyOk cfg.snapWith moving resizing = true)
    (hor : sn.orientation = .horizontal)
    (hgetid : (SpaceWindows.get s.windows id).isSome = true)
    (hother : SpaceWindows.get s.windows (otherIdOf sn id) = some other)
    (hstaged : other.staged = false)
    (hclock : other.clockPosition = some c) (hc : c = 0 ∨ c = 1) :
    (onUserBoundsChangeEnd cfg s id size moving resizing false).snaps.countP
      (fun x => x.hasMember id) ≤ 1 := by
  obtain ⟨iw, hiw⟩ := Option.isSome_iff_exists.mp hgetid
  rw [onUserBoundsChangeEnd, hsn]
  simp only [onUserBoundsChangeEndAux, hpolicy, if_true, hiw, hother, hor,
    if_pos rfl, hstaged, Bool.or_false, Bool.false_eq_true, if_false, hclock]
  rcases hc with hc | hc <;> subst hc <;>
    · simp [List.countP_append, countP_hasMember_filter_not, List.countP_cons]
      split_ifs <;> omega

/-- Witness for the amended C3 at the specification's commit scenario: after
`B` commits against `A`, `B` belongs to at most one snap. -/
theorem commit_interacted_in_at_most_one_snap_witness :
    (onUserBoundsChangeEnd
        { snapMargin := 20, snapThreshold := 50, snapWith := .all, scale := (1, 1) }
        (onWindowBoundsChange
          { snapMargin := 20, snapThreshold := 50, snapWith := .all, scale := (1, 1) }
          { windows := [{ id := "A", position := (100, 100), size := (200, 150) }],
            snaps := [], snapping := none, toSnap := none }
          "B" (305, 105) (200, 150) true false false)
        "B" (200, 150) false false false).snaps.countP
      (fun x => x.hasMember "B") ≤ 1 :=
  commit_interacted_in_at_most_one_snap
    { snapMargin := 20, snapThreshold := 50, snapWith := .all, scale := (1, 1) }
    (onWindowBoundsChange
      { snapMargin := 20, snapThreshold := 50, snapWith := .all, scale := (1, 1) }
      { windows := [{ id := "A", position := (100, 100), size := (200, 150) }],
        snaps := [], snapping := none, toSnap := none }
      "B" (305, 105) (200, 150) true false false)
    "B" (200, 150) false false
    { orientation := .horizontal, interactedId := "B",
      relatedIds := ["A", "B"], leftId := "A", rightId := "B" }
    { id := "A", position := (100, 100), size := (200, 150), moving := false,
      resizing := false, staged := false, clockPosition := some 0 }
    0
    (by decide) (by decide) (by decide) (by decide) (by decide) (by decide)
    (by decide) (Or.inl rfl)

end SnapUniquenessClaims

section StagedClaims

/-- Engine run for the staged-member scenario: `A` at (0,0) and `B` at
(120,0) are registered (no interaction, so no snap forms), `B` then becomes
staged via the staged effect, and afterwards `C` at (240,0) is dragged next
to `B` and released.  `SpaceWindows.set` never overwrites the `staged` flag
of an existing record and the staged-path bounds change skips the registry
write, so `B`'s registry record still carries `staged = false`: it passes the
proximity filter and the `other.staged` commit check, and the release of `C`
commits a snap whose member `B` is staged. -/
def stagedMemberRun : SpaceState :=
  let cfg : SpaceConfig :=
    { snapMargin := 20, snapThreshold := 50, snapWith := .all, scale := (1, 1) }
  let s0 : SpaceState := { windows := [], snaps := [], snapping := none, toSnap := none }
  let s1 := onWindowBoundsChange cfg s0 "A" (0, 0) (100, 100) false false false
  let s2 := onWindowBoundsChange cfg s1 "B" (120, 0) (100, 100) false false false
  let s3 := stagedNotify cfg s2 "B" (120, 0) (100, 100) false
  let s4 := onWindowBoundsChange cfg s3 "C" (240, 0) (100, 100) true false false
  onUserBoundsChangeEnd cfg s4 "C" (100, 100) false false false

/-- Counterexample for claim C8: the claimed invariant "at no reachable state
does a committed Snap contain a staged member window" is false.  In
`stagedMemberRun` the last staging notification processed for `B` set
`staged = true` (the `stagedNotify` step) and no later notification
un-staged it, yet the final state holds a committed snap with member `B`;
`B`'s registry record still reads `staged = false` (with the edge hint
written by `C`'s drag), which is the stale flag that let it back in. -/
theorem staged_member_in_snap_counterexample :
    stagedMemberRun.snaps.countP (fun sn => sn.hasMember "B") = 1 ∧
    SpaceWindows.get stagedMemberRun.windows "B" =
      some { id := "B", position := (120, 0), size := (100, 100),
             moving := false, resizing := false, staged := false,
             clockPosition := some 0 } := by
  decide

/-- Claim C8 as amended: when a window becomes staged, the staged effect
(bounds notification with `staged = true` followed by `onUserBoundsChangeEnd`
with `moving = false`, `staged = true` in the same tick) clears the tentative
`Snapping` and the pending `ToSnap` and drops exactly the committed snaps
involving that window, in every branch of the end callback; the drop is
guaranteed only for that update, not as a global invariant.  (When a
tentative snapping is live and the gate passes, the callback needs the
window and its snapping partner to still be registered and the snapping to be
horizontal — the only orientation the engine produces.) -/
theorem staged_drops_snaps (cfg : SpaceConfig) (s : SpaceState) (id : String)
    (position size : ℤ × ℤ) (resizing : Bool)
    (hcase : ∀ sn, s.snapping = some sn →
      endPolicyOk cfg.snapWith false resizing = true →
      sn.orientation = .horizontal ∧
      (SpaceWindows.get s.windows id).isSome = true ∧
      (SpaceWindows.get s.windows (otherIdOf sn id)).isSome = true) :
    (stagedNotify cfg s id position size resizing).snapping = none ∧
    (stagedNotify cfg s id position size resizing).toSnap = none ∧
    (stagedNotify cfg s id position size resizing).snaps =
      s.snaps.filter (fun sn' => !sn'.hasMember id) := by
  rw [stagedNotify, onWindowBoundsChange]
  simp only [if_true]
  cases hsnap : s.snapping with
  | none =>
      simp [onUserBoundsChangeEndAux]
  | some sn =>
      by_cases hp : endPolicyOk cfg.snapWith false resizing = true
      · obtain ⟨hor, hgetid, hgetother⟩ := hcase sn hsnap hp
        obtain ⟨iw, hiw⟩ := Option.isSome_iff_exists.mp hgetid
        obtain ⟨ow, how⟩ := Option.isSome_iff_exists.mp hgetother
        simp [onUserBoundsChangeEndAux, hp, hiw, how, hor]
      · have hp' : endPolicyOk cfg.snapWith false resizing = false :=
          Bool.not_eq_true _ ▸ hp
        simp [onUserBoundsChangeEndAux, hp']

/-- Witness for C8: windows `A` and `B` are snapped (`A`–`B` committed) and a
tentative snapping for `B` is live when `B` becomes staged; the staged effect
clears the tentative state and drops the snap. -/
theorem staged_drops_snaps_witness :
    (stagedNotify
        { snapMargin := 20, snapThreshold := 50, snapWith := .all, scale := (1, 1) }
        { windows :=
            [{ id := "A", position := (0, 0), size := (100, 100),
               clockPosition := some 0 },
             { id := "B", position := (120, 0), size := (100, 100) }],
          snaps :=
            [{ orientation := .horizontal, interactedId := "B",
               relatedIds := ["A", "B"], leftId := "A", rightId := "B" }],
          snapping :=
            some { orientation := .horizontal, interactedId := "B",
                   relatedIds := ["A", "B"], leftId := "A", rightId := "B" },
          toSnap := none }
        "B" (120, 0) (100, 100) false).snapping = none ∧
    (stagedNotify
        { snapMargin := 20, snapThreshold := 50, snapWith := .all, scale := (1, 1) }
        { windows :=
            [{ id := "A", position := (0, 0), size := (100, 100),
               clockPosition := some 0 },
             { id := "B", position := (120, 0), size := (100, 100) }],
          snaps :=
            [{ orientation := .horizontal, interactedId := "B",
               relatedIds := ["A", "B"], leftId := "A", rightId := "B" }],
          snapping :=
            some { orientation := .horizontal, interactedId := "B",
                   relatedIds := ["A", "B"], leftId := "A", rightId := "B" },
          toSnap := none }
        "B" (120, 0) (100, 100) false).toSnap = none ∧
    (stagedNotify
        { snapMargin := 20, snapThreshold := 50, snapWith := .all, scale := (1, 1) }
        { windows :=
            [{ id := "A", position := (0, 0), size := (100, 100),
               clockPosition := some 0 },
             { id := "B", position := (120, 0), size := (100, 100) }],
          snaps :=
            [{ orientation := .horizontal, interactedId := "B",
               relatedIds := ["A", "B"], leftId := "A", rightId := "B" }],
          snapping :=
            some { orientation := .horizontal, interactedId := "B",
                   relatedIds := ["A", "B"], leftId := "A", rightId := "B" },
          toSnap := none }
        "B" (120, 0) (100, 100) false).snaps = [] := by
  have h := staged_drops_snaps
    { snapMargin := 20, snapThreshold := 50, snapWith := .all, scale := (1, 1) }
    { windows :=
        [{ id := "A", position := (0, 0), size := (100, 100),
           clockPosition := some 0 },
         { id := "B", position := (120, 0), size := (100, 100) }],
      snaps :=
        [{ orientation := .horizontal, interactedId := "B",
           relatedIds := ["A", "B"], leftId := "A", rightId := "B" }],
      snapping :=
        some { orientation := .horizontal, interactedId := "B",
               relatedIds := ["A", "B"], leftId := "A", rightId := "B" },
      toSnap := none }
    "B" (120, 0) (100, 100) false
    (by intro sn hsn hp; cases hsn; exact ⟨rfl, by decide, by decide⟩)
  refine ⟨h.1, h.2.1, ?_⟩
  rw [h.2.2]
  decide

end StagedClaims
